import Mathlib

/-!
Shallow embedding of the `action` (and `loader`) of
`src/app/routes/search/index.tsx` of poc-google-search.

The action:
  1. reads the form field `query`;
  2. asserts the three environment credentials via `invariant` (which
     throws when the value is falsy: absent or the empty string);
  3. POSTs a completion request with `buildPrompt query`;
  4. extracts `gptResponse.data.choices[0]?.text` (optional chaining:
     an absent first choice or absent text yields `undefined`);
  5. `JSON.parse`s the raw text inside a `try`; a parse failure returns
     `json(\x7b error: "Invalid response from GPT" \x7d, \x7b status: 400 \x7d)`;
  6. rejects a parsed value that is not an array with the same 400 response;
  7. maps each array element to a concurrent Google custom-search GET; each
     task maps `searchResponse.data.items.map(...)` to `ImageResult` records
     (throwing a TypeError when `items` is absent, since the access is not
     optional-chained) and `Promise.all` joins them;
  8. flattens the per-term result lists in term order and returns
     `json(\x7b searchTerms, results \x7d)`.

External collaborators (the JS `JSON.parse` builtin and the two HTTP
capabilities) are parameters (`Stubs`); everything else is translated from
the source.  `Promise.all` is modelled with an explicit settle-order
schedule: the value list is always reassembled in input order, while a
rejection surfaces the first rejection in settle order.
-/

namespace PocSearch

/-- A JSON value, the result of a successful `JSON.parse`. -/
inductive Json where
  | null : Json
  | bool : Bool → Json
  | num : Int → Json
  | str : String → Json
  | arr : List Json → Json
  | obj : List (String × Json) → Json

/-- The `interface ImageResult` of the source: the normalized image record. -/
structure ImageResult where
  link : String
  displayLink : String
  title : String
deriving DecidableEq

/-- One raw item of the search capability's `data.items` list; the source
reads exactly the fields `link`, `displayLink`, `title`. -/
structure RawItem where
  link : String
  displayLink : String
  title : String
deriving DecidableEq

/-- The search capability's response body: `items` may be absent. -/
structure SearchData where
  items : Option (List RawItem)

/-- One element of the completion response's `choices`; `text` may be absent. -/
structure Choice where
  text : Option String

/-- The completion capability's response body. -/
structure CompletionData where
  choices : List Choice

/-- The three environment credentials read by the action; a field is `none`
when the variable is unset. -/
structure Env where
  OPENAI_API_KEY : Option String
  CUSTOM_SEARCH_KEY : Option String
  CUSTOM_SEARCH_CX : Option String

/-- JS truthiness of an environment variable: `undefined` and the empty
string are falsy, every other string is truthy (what `invariant` tests). -/
def truthy : Option String → Bool
  | none => false
  | some s => !(s == "")

/-- The external collaborators the action invokes, as deterministic stubs:
the `JSON.parse` builtin (`none` = throws a SyntaxError), the completion
capability keyed by the prompt, and the search capability keyed by the
query term (`Except.error ()` = transport/non-2xx failure). -/
structure Stubs where
  parse : String → Option Json
  complete : String → Except Unit CompletionData
  search : Json → Except Unit SearchData

/-- Exceptions that can escape the action (Remix surfaces them as
500-class error responses). -/
inductive JsError where
  | invariantViolation : String → JsError
  | upstreamGenerationError : JsError
  | upstreamSearchError : Json → JsError
  | typeError : JsError

/-- A response the action or loader returns normally:
`json(\x7b error \x7d, \x7b status \x7d)`, the success payload
`json(\x7b searchTerms, results \x7d)`, or the loader's `json(\x7b\x7d)`. -/
inductive ActionResponse where
  | jsonError : String → Nat → ActionResponse
  | success : List Json → List ImageResult → ActionResponse
  | emptyJson : ActionResponse

/-- The action's outcome together with the outbound calls it issued. -/
structure Trace where
  result : Except JsError ActionResponse
  completionCalls : Nat
  searchQueries : List Json

/-- The `buildPrompt` of the source: the instruction template with the lesson
text interpolated at `${query}`. -/
def buildPrompt (query : String) : String :=
  "\nÉ muito importante que a sua mensagem de resposta não contenha nenhuma explicação ou texto, apenas o resultado da forma mais simples possível, seguindo o exemplo a seguir:\n[\"termo 1\", \"termo 2\", \"termo 3\"]\n\n------ Agora, vamos às instruções.\n\nEstou criando uma API simples que faz pesquisas em imagens no Google e retorna a lista de imagens.\nO objetivo principal dessa ferramenta é pegar uma estrutura de tópicos que estou organizando para montar uma aula e trazer imagens relevantes para ilustrar o tema.\nDessa forma, gostaria de automatizar essa geração de imagens usando ChatGPT.\n\nPortanto, para o texto da aula, traga o termo de pesquisa completo que devo usar para extrair imagens. É importante que você traga uma lista de termos de pesquisa mais detalhados, para que a imagem buscada seja o mais próximo possível da realidade.\nComo vou usar isso em um software, traga uma lista dos termos já estrutura em JavaScript, sem nenhuma informação extra, apenas o código necessário para criar a lista de termos e fazer a pesquisa.\nÉ importante que tenha apenas 3 termos, selecionados da melhor forma para representar a ideia do texto da aula.\n\n\n----- Texto da aula:\n\n"
    ++ query ++ "\n\nResposta:\n"

/-- The object literal mapped over `data.items`. -/
def toImageResult (it : RawItem) : ImageResult :=
  ⟨it.link, it.displayLink, it.title⟩

/-- One concurrent per-term task of the fan-out: the search call followed by
`searchResponse.data.items.map(...)`.  A failed search call rejects with the
upstream error attributed to the term; an absent `items` field rejects with
the TypeError thrown by `.map` on `undefined`. -/
def searchTask (stubs : Stubs) (term : Json) : Except JsError (List ImageResult) :=
  match stubs.search term with
  | .error _ => .error (.upstreamSearchError term)
  | .ok d =>
    match d.items with
    | none => .error .typeError
    | some items => .ok (items.map toImageResult)

/-- The rejection of task `i`, if task `i` exists and rejected. -/
def errAt (tasks : List (Except JsError (List ImageResult))) (i : Nat) :
    Option JsError :=
  match tasks[i]? with
  | some (Except.error e) => some e
  | _ => none

/-- The first rejection of `tasks` in the settle order `order`. -/
def firstErrorIn (order : List Nat)
    (tasks : List (Except JsError (List ImageResult))) : Option JsError :=
  order.findSome? (errAt tasks)

/-- The fulfilled values of the tasks, in input order, when none rejected. -/
def collectOks : List (Except JsError (List ImageResult)) →
    Option (List (List ImageResult))
  | [] => some []
  | Except.ok v :: rest => (collectOks rest).map (v :: ·)
  | Except.error _ :: _ => none

/-- The `Promise.all` join under the settle order `order`: if some task rejects, the
join rejects with the first rejection to settle; otherwise it fulfills with
the values in input order (independent of the settle order).  The final two
branches are unreachable when `order` covers every index. -/
def promiseAllSched (order : List Nat)
    (tasks : List (Except JsError (List ImageResult))) :
    Except JsError (List (List ImageResult)) :=
  match firstErrorIn order tasks with
  | some e => .error e
  | none =>
    match collectOks tasks with
    | some vs => .ok vs
    | none =>
      match firstErrorIn (List.range tasks.length) tasks with
      | some e => .error e
      | none => .ok []

/-- Step 2 and 3 of the pipeline: fan out one `searchTask` per term, join
with `Promise.all`, flatten in term order and return the success payload.
All the search calls are issued before the join settles. -/
def fanOut (sched : Nat → List Nat) (stubs : Stubs) (terms : List Json) :
    Trace :=
  match promiseAllSched (sched terms.length) (terms.map (searchTask stubs)) with
  | .error e => ⟨.error e, 1, terms⟩
  | .ok lists => ⟨.ok (.success terms lists.flatten), 1, terms⟩

/-- Lines 61-97 of the source after the completion call: the guarded
`JSON.parse` (failure returns the 400 response), the `Array.isArray` check
(failure returns the same 400 response), then the fan-out. -/
def handleParsed (sched : Nat → List Nat) (stubs : Stubs) :
    Option Json → Trace
  | some (Json.arr terms) => fanOut sched stubs terms
  | _ => ⟨.ok (.jsonError "Invalid response from GPT" 400), 1, []⟩

/-- The extraction `gptResponse.data.choices[0]?.text`: `none` when there is no first
choice or its `text` is absent. -/
def extractText (data : CompletionData) : Option String :=
  data.choices.head?.bind Choice.text

/-- The continuation after the completion POST: a transport failure
propagates as `UpstreamGenerationError`; otherwise the raw text is
extracted and parsed (`JSON.parse(undefined)` throws, hence an absent raw
text parses to `none`). -/
def handleCompletion (sched : Nat → List Nat) (stubs : Stubs) :
    Except Unit CompletionData → Trace
  | .error _ => ⟨.error .upstreamGenerationError, 1, []⟩
  | .ok data => handleParsed sched stubs ((extractText data).bind stubs.parse)

/-- The `action` of the source, instrumented with the outbound calls it
issues, and parameterized by the settle order of the concurrent fan-out.
The three `invariant` checks run first, in source order, before any
outbound call. -/
def runActionSched (sched : Nat → List Nat) (env : Env) (stubs : Stubs)
    (query : String) : Trace :=
  if truthy env.OPENAI_API_KEY = false then
    ⟨.error (.invariantViolation "OPENAI_API_KEY must be set"), 0, []⟩
  else if truthy env.CUSTOM_SEARCH_KEY = false then
    ⟨.error (.invariantViolation "CUSTOM_SEARCH_KEY must be set"), 0, []⟩
  else if truthy env.CUSTOM_SEARCH_CX = false then
    ⟨.error (.invariantViolation "CUSTOM_SEARCH_CX must be set"), 0, []⟩
  else handleCompletion sched stubs (stubs.complete (buildPrompt query))

/-- The canonical settle order: tasks settle in input order. -/
def canonicalSched (n : Nat) : List Nat := List.range n

/-- The instrumented action under the canonical settle order. -/
def runAction (env : Env) (stubs : Stubs) (query : String) : Trace :=
  runActionSched canonicalSched env stubs query

/-- The `action` of the source: thrown exception or returned response. -/
def action (env : Env) (stubs : Stubs) (query : String) :
    Except JsError ActionResponse :=
  (runAction env stubs query).result

/-- The `loader` of the source: returns `json(\x7b\x7d)` unconditionally. -/
def loader (_env : Env) : Except JsError ActionResponse :=
  .ok .emptyJson

/-! ### Properties of the `Promise.all` model -/

/-- A settle order is valid when it mentions every task index. -/
def Covers (order : List Nat) (n : Nat) : Prop :=
  ∀ i, i < n → i ∈ order

theorem canonicalSched_covers (n : Nat) : Covers (canonicalSched n) n := by
  intro i hi
  simpa [canonicalSched] using hi

theorem errAt_eq_some_iff (tasks : List (Except JsError (List ImageResult)))
    (i : Nat) (e : JsError) :
    errAt tasks i = some e ↔ tasks[i]? = some (Except.error e) := by
  unfold errAt
  rcases hg : tasks[i]? with _ | x
  · simp [hg]
  · cases x <;> simp [hg]

theorem errAt_eq_none_of_ok (tasks : List (Except JsError (List ImageResult)))
    (i : Nat) (h : ∀ x ∈ tasks, ∃ v, x = Except.ok v) :
    errAt tasks i = none := by
  unfold errAt
  rcases hg : tasks[i]? with _ | x
  · simp [hg]
  · obtain ⟨v, rfl⟩ := h x (List.mem_iff_getElem?.mpr ⟨i, hg⟩)
    simp [hg]

theorem firstErrorIn_eq_none_of_ok (order : List Nat)
    (tasks : List (Except JsError (List ImageResult)))
    (h : ∀ x ∈ tasks, ∃ v, x = Except.ok v) :
    firstErrorIn order tasks = none := by
  unfold firstErrorIn
  rw [List.findSome?_eq_none_iff]
  intro i _
  exact errAt_eq_none_of_ok tasks i h

theorem collectOks_eq_some_of_ok
    (tasks : List (Except JsError (List ImageResult)))
    (h : ∀ x ∈ tasks, ∃ v, x = Except.ok v) :
    ∃ vs, collectOks tasks = some vs := by
  induction tasks with
  | nil => exact ⟨[], rfl⟩
  | cons x rest ih =>
    obtain ⟨v, rfl⟩ := h x (List.mem_cons_self x rest)
    obtain ⟨vs, hvs⟩ := ih (fun y hy => h y (List.mem_cons_of_mem _ hy))
    exact ⟨v :: vs, by simp [collectOks, hvs]⟩

theorem all_ok_of_firstErrorIn_eq_none (order : List Nat)
    (tasks : List (Except JsError (List ImageResult)))
    (hcov : Covers order tasks.length)
    (hnone : firstErrorIn order tasks = none) :
    ∀ x ∈ tasks, ∃ v, x = Except.ok v := by
  intro x hx
  obtain ⟨i, hi⟩ := List.mem_iff_getElem?.mp hx
  cases x with
  | ok v => exact ⟨v, rfl⟩
  | error e =>
    have hlen : i < tasks.length := (List.getElem?_eq_some_iff.mp hi).1
    have hmem : i ∈ order := hcov i hlen
    have hz := (List.findSome?_eq_none_iff.mp hnone) i hmem
    have hs : errAt tasks i = some e := (errAt_eq_some_iff tasks i e).mpr hi
    rw [hz] at hs
    exact absurd hs (by simp)

theorem promiseAllSched_eq_ok_of_all_ok (order : List Nat)
    (tasks : List (Except JsError (List ImageResult)))
    (vs : List (List ImageResult))
    (h : ∀ x ∈ tasks, ∃ v, x = Except.ok v)
    (hc : collectOks tasks = some vs) :
    promiseAllSched order tasks = Except.ok vs := by
  simp [promiseAllSched, firstErrorIn_eq_none_of_ok order tasks h, hc]

theorem promiseAllSched_ok_inv (order : List Nat)
    (tasks : List (Except JsError (List ImageResult)))
    (vs : List (List ImageResult))
    (hcov : Covers order tasks.length)
    (hok : promiseAllSched order tasks = Except.ok vs) :
    (∀ x ∈ tasks, ∃ v, x = Except.ok v) ∧ collectOks tasks = some vs := by
  unfold promiseAllSched at hok
  rcases hf : firstErrorIn order tasks with _ | e
  · rw [hf] at hok
    have hall := all_ok_of_firstErrorIn_eq_none order tasks hcov hf
    obtain ⟨vs0, hvs0⟩ := collectOks_eq_some_of_ok tasks hall
    rw [hvs0] at hok
    simp at hok
    exact ⟨hall, by rw [hvs0, hok]⟩
  · rw [hf] at hok
    simp at hok

theorem promiseAllSched_err (order : List Nat)
    (tasks : List (Except JsError (List ImageResult)))
    (hcov : Covers order tasks.length)
    (e0 : JsError) (i0 : Nat) (hi0 : tasks[i0]? = some (Except.error e0)) :
    ∃ e, promiseAllSched order tasks = Except.error e ∧
      Except.error e ∈ tasks := by
  have hne : firstErrorIn order tasks ≠ none := by
    intro hnone
    have hall := all_ok_of_firstErrorIn_eq_none order tasks hcov hnone
    obtain ⟨v, hv⟩ := hall _ (List.mem_iff_getElem?.mpr ⟨i0, hi0⟩)
    simp at hv
  rcases hf : firstErrorIn order tasks with _ | e
  · exact absurd hf hne
  · obtain ⟨i, hiord, hie⟩ := List.exists_of_findSome?_eq_some hf
    refine ⟨e, ?_, ?_⟩
    · simp [promiseAllSched, hf]
    · exact List.mem_iff_getElem?.mpr ⟨i, (errAt_eq_some_iff tasks i e).mp hie⟩

theorem promiseAll_three (x y z : List ImageResult) :
    promiseAllSched (canonicalSched 3)
      [Except.ok x, Except.ok y, Except.ok z] = Except.ok [x, y, z] := rfl

/-! ### The claims -/

/-- Claim C1: for every lesson text, when the completion capability returns
a valid 3-element JSON array of non-empty strings and the search capability
returns a fixed result list per phrase, the pipeline succeeds with
`searchTerms` equal to the 3 phrases in order and `results` equal to the
concatenation of each phrase's results in phrase order, each mapped to
`\x7b link, displayLink, title \x7d`. -/
theorem c1_success_aggregation
    (env : Env) (stubs : Stubs) (query : String)
    (a b c raw : String) (data : CompletionData)
    (la lb lc : List RawItem)
    (h1 : truthy env.OPENAI_API_KEY = true)
    (h2 : truthy env.CUSTOM_SEARCH_KEY = true)
    (h3 : truthy env.CUSTOM_SEARCH_CX = true)
    (hComplete : stubs.complete (buildPrompt query) = Except.ok data)
    (hRaw : extractText data = some raw)
    (hParse : stubs.parse raw =
      some (Json.arr [Json.str a, Json.str b, Json.str c]))
    (hA : a ≠ "") (hB : b ≠ "") (hC : c ≠ "")
    (hSa : stubs.search (Json.str a) = Except.ok ⟨some la⟩)
    (hSb : stubs.search (Json.str b) = Except.ok ⟨some lb⟩)
    (hSc : stubs.search (Json.str c) = Except.ok ⟨some lc⟩) :
    action env stubs query =
      Except.ok (ActionResponse.success
        [Json.str a, Json.str b, Json.str c]
        (la.map toImageResult ++ lb.map toImageResult ++
          lc.map toImageResult)) := by
  simp [action, runAction, runActionSched, h1, h2, h3, handleCompletion,
    hComplete, hRaw, hParse, handleParsed, fanOut, searchTask,
    hSa, hSb, hSc, promiseAll_three]

def c1Item : RawItem := ⟨"https://img.example/1.png", "img.example", "Imagem 1"⟩

def c1Data : CompletionData :=
  ⟨[⟨some "[\"termo a\", \"termo b\", \"termo c\"]"⟩]⟩

def c1Stubs : Stubs where
  parse := fun _ =>
    some (Json.arr [Json.str "termo a", Json.str "termo b", Json.str "termo c"])
  complete := fun _ => Except.ok c1Data
  search := fun _ => Except.ok ⟨some [c1Item]⟩

theorem c1_success_aggregation_witness :
    action ⟨some "sk-test", some "cs-key", some "cs-cx"⟩ c1Stubs
        "uma aula sobre plantas" =
      Except.ok (ActionResponse.success
        [Json.str "termo a", Json.str "termo b", Json.str "termo c"]
        ([c1Item].map toImageResult ++ [c1Item].map toImageResult ++
          [c1Item].map toImageResult)) :=
  c1_success_aggregation ⟨some "sk-test", some "cs-key", some "cs-cx"⟩
    c1Stubs "uma aula sobre plantas" "termo a" "termo b" "termo c"
    "[\"termo a\", \"termo b\", \"termo c\"]" c1Data [c1Item] [c1Item] [c1Item]
    rfl rfl rfl rfl rfl rfl (by decide) (by decide) (by decide) rfl rfl rfl

/-- Claim C2: if any one of the concurrent search invocations fails (and no
other task throws for a different reason), the whole action fails with
`UpstreamSearchError` attributed to a failing phrase, and the success
payload is never constructed — no partial results. -/
theorem c2_search_failure_all_or_nothing
    (env : Env) (stubs : Stubs) (query : String)
    (raw : String) (data : CompletionData) (terms : List Json)
    (h1 : truthy env.OPENAI_API_KEY = true)
    (h2 : truthy env.CUSTOM_SEARCH_KEY = true)
    (h3 : truthy env.CUSTOM_SEARCH_CX = true)
    (hComplete : stubs.complete (buildPrompt query) = Except.ok data)
    (hRaw : extractText data = some raw)
    (hParse : stubs.parse raw = some (Json.arr terms))
    (t0 : Json) (ht0 : t0 ∈ terms)
    (hFail : stubs.search t0 = Except.error ())
    (hOthers : ∀ t ∈ terms, ∀ d, stubs.search t = Except.ok d →
      d.items ≠ none) :
    (∃ t ∈ terms, stubs.search t = Except.error () ∧
        action env stubs query =
          Except.error (JsError.upstreamSearchError t)) ∧
    ∀ st rs, action env stubs query ≠
      Except.ok (ActionResponse.success st rs) := by
  have hred : action env stubs query =
      (fanOut canonicalSched stubs terms).result := by
    simp [action, runAction, runActionSched, h1, h2, h3, handleCompletion,
      hComplete, hRaw, hParse, handleParsed]
  obtain ⟨i0, hi0⟩ := List.mem_iff_getElem?.mp ht0
  have htask : (terms.map (searchTask stubs))[i0]? =
      some (Except.error (JsError.upstreamSearchError t0)) := by
    rw [List.getElem?_map, hi0]
    simp [searchTask, hFail]
  have hcov : Covers (canonicalSched terms.length)
      (terms.map (searchTask stubs)).length := by
    rw [List.length_map]
    exact canonicalSched_covers _
  obtain ⟨e, hperr, hmem⟩ :=
    promiseAllSched_err (canonicalSched terms.length) _ hcov _ i0 htask
  obtain ⟨t, ht, hst⟩ := List.mem_map.mp hmem
  have hres : action env stubs query = Except.error e := by
    rw [hred]
    simp [fanOut, hperr]
  rcases hs : stubs.search t with u | d
  · cases u
    simp [searchTask, hs] at hst
    refine ⟨⟨t, ht, hs, ?_⟩, ?_⟩
    · rw [hres, ← hst]
    · intro st rs
      rw [hres]
      simp
  · rcases hd : d.items with _ | items
    · exact absurd hd (hOthers t ht d hs)
    · simp [searchTask, hs, hd] at hst

def c2Data : CompletionData :=
  ⟨[⟨some "[\"ta\", \"tb\", \"tc\"]"⟩]⟩

def c2Stubs : Stubs where
  parse := fun _ =>
    some (Json.arr [Json.str "ta", Json.str "tb", Json.str "tc"])
  complete := fun _ => Except.ok c2Data
  search := fun t =>
    match t with
    | Json.str "tb" => Except.error ()
    | _ => Except.ok ⟨some []⟩

theorem c2_search_failure_all_or_nothing_witness :
    (∃ t ∈ [Json.str "ta", Json.str "tb", Json.str "tc"],
        c2Stubs.search t = Except.error () ∧
        action ⟨some "k1", some "k2", some "k3"⟩ c2Stubs "aula" =
          Except.error (JsError.upstreamSearchError t)) ∧
    ∀ st rs, action ⟨some "k1", some "k2", some "k3"⟩ c2Stubs "aula" ≠
      Except.ok (ActionResponse.success st rs) :=
  c2_search_failure_all_or_nothing ⟨some "k1", some "k2", some "k3"⟩
    c2Stubs "aula" "[\"ta\", \"tb\", \"tc\"]" c2Data
    [Json.str "ta", Json.str "tb", Json.str "tc"]
    rfl rfl rfl rfl rfl rfl (Json.str "tb")
    (List.mem_cons_of_mem _ (List.mem_cons_self _ _)) rfl
    (by
      intro t ht d hd
      simp only [List.mem_cons, List.not_mem_nil, or_false] at ht
      rcases ht with rfl | rfl | rfl
      · cases hd
        simp
      · cases hd
      · cases hd
        simp)

def c3Data : CompletionData := ⟨[⟨some "[\"ta\", \"tb\"]"⟩]⟩

def c3Stubs : Stubs where
  parse := fun _ => some (Json.arr [Json.str "ta", Json.str "tb"])
  complete := fun _ => Except.ok c3Data
  search := fun _ => Except.ok ⟨some []⟩

/-- Claim C3 counterexample: a completion output that parses to a 2-element
string array is not rejected with the InvalidGenerationFormat response: the
action fans out 2 search calls and succeeds with 2 search terms. -/
theorem c3_counterexample_two_terms_accepted :
    action ⟨some "k1", some "k2", some "k3"⟩ c3Stubs "aula" =
      Except.ok (ActionResponse.success [Json.str "ta", Json.str "tb"] []) ∧
    (runAction ⟨some "k1", some "k2", some "k3"⟩ c3Stubs
        "aula").searchQueries.length = 2 :=
  ⟨rfl, rfl⟩

/-- Claim C3 (amended): the action does not validate the count or the
element types of the parsed array: whenever the completion output parses to
a JSON array `terms` of any length, the fan-out issues exactly one search
call per element in array order and the InvalidGenerationFormat 400
response is never returned. -/
theorem c3_no_count_or_type_validation
    (env : Env) (stubs : Stubs) (query : String)
    (raw : String) (data : CompletionData) (terms : List Json)
    (h1 : truthy env.OPENAI_API_KEY = true)
    (h2 : truthy env.CUSTOM_SEARCH_KEY = true)
    (h3 : truthy env.CUSTOM_SEARCH_CX = true)
    (hComplete : stubs.complete (buildPrompt query) = Except.ok data)
    (hRaw : extractText data = some raw)
    (hParse : stubs.parse raw = some (Json.arr terms)) :
    (runAction env stubs query).searchQueries = terms ∧
    ∀ m s, action env stubs query ≠
      Except.ok (ActionResponse.jsonError m s) := by
  have hred : runAction env stubs query = fanOut canonicalSched stubs terms := by
    simp [runAction, runActionSched, h1, h2, h3, handleCompletion,
      hComplete, hRaw, hParse, handleParsed]
  constructor
  · rw [hred]
    unfold fanOut
    split <;> rfl
  · intro m s
    show (runAction env stubs query).result ≠ _
    rw [hred]
    unfold fanOut
    split <;> simp

def c3AmendedStubs : Stubs where
  parse := fun _ => some (Json.arr [Json.str "só um termo"])
  complete := fun _ => Except.ok ⟨[⟨some "[\"só um termo\"]"⟩]⟩
  search := fun _ => Except.ok ⟨some []⟩

theorem c3_no_count_or_type_validation_witness :
    (runAction ⟨some "k1", some "k2", some "k3"⟩ c3AmendedStubs
        "aula").searchQueries = [Json.str "só um termo"] ∧
    ∀ m s, action ⟨some "k1", some "k2", some "k3"⟩ c3AmendedStubs "aula" ≠
      Except.ok (ActionResponse.jsonError m s) :=
  c3_no_count_or_type_validation ⟨some "k1", some "k2", some "k3"⟩
    c3AmendedStubs "aula" "[\"só um termo\"]" ⟨[⟨some "[\"só um termo\"]"⟩]⟩
    [Json.str "só um termo"] rfl rfl rfl rfl rfl rfl

/-- Claim C4: when the raw completion text does not parse as JSON, or parses
to a value that is not an array (an object or a scalar), the action returns
the 400 "Invalid response from GPT" response and issues zero search calls. -/
theorem c4_unparseable_or_nonarray_rejected
    (env : Env) (stubs : Stubs) (query : String)
    (raw : String) (data : CompletionData)
    (h1 : truthy env.OPENAI_API_KEY = true)
    (h2 : truthy env.CUSTOM_SEARCH_KEY = true)
    (h3 : truthy env.CUSTOM_SEARCH_CX = true)
    (hComplete : stubs.complete (buildPrompt query) = Except.ok data)
    (hRaw : extractText data = some raw)
    (hBad : stubs.parse raw = none ∨
      ∃ j, stubs.parse raw = some j ∧ ∀ xs, j ≠ Json.arr xs) :
    action env stubs query =
      Except.ok (ActionResponse.jsonError "Invalid response from GPT" 400) ∧
    (runAction env stubs query).searchQueries = [] := by
  have hrun : runAction env stubs query =
      handleParsed canonicalSched stubs (stubs.parse raw) := by
    simp [runAction, runActionSched, h1, h2, h3, handleCompletion,
      hComplete, hRaw]
  have htr : runAction env stubs query =
      ⟨Except.ok (ActionResponse.jsonError "Invalid response from GPT" 400),
        1, []⟩ := by
    rcases hBad with hnone | ⟨j, hj, hnarr⟩
    · rw [hrun, hnone]
      rfl
    · rw [hrun, hj]
      cases j with
      | arr xs => exact absurd rfl (hnarr xs)
      | null => rfl
      | bool b => rfl
      | num n => rfl
      | str s => rfl
      | obj fs => rfl
  exact ⟨by show (runAction env stubs query).result = _; rw [htr],
    by rw [htr]⟩

def c4Data : CompletionData := ⟨[⟨some "not json"⟩]⟩

def c4Stubs : Stubs where
  parse := fun _ => none
  complete := fun _ => Except.ok c4Data
  search := fun _ => Except.ok ⟨some []⟩

theorem c4_unparseable_or_nonarray_rejected_witness :
    action ⟨some "k1", some "k2", some "k3"⟩ c4Stubs "aula" =
      Except.ok (ActionResponse.jsonError "Invalid response from GPT" 400) ∧
    (runAction ⟨some "k1", some "k2", some "k3"⟩ c4Stubs
        "aula").searchQueries = [] :=
  c4_unparseable_or_nonarray_rejected ⟨some "k1", some "k2", some "k3"⟩
    c4Stubs "aula" "not json" c4Data rfl rfl rfl rfl rfl (Or.inl rfl)

def c5Data : CompletionData := ⟨[⟨some "[\"gato\"]"⟩]⟩

def c5Stubs : Stubs where
  parse := fun _ => some (Json.arr [Json.str "gato"])
  complete := fun _ => Except.ok c5Data
  search := fun _ => Except.ok ⟨none⟩

def c5EmptyStubs : Stubs where
  parse := fun _ => some (Json.arr [Json.str "gato"])
  complete := fun _ => Except.ok c5Data
  search := fun _ => Except.ok ⟨some []⟩

/-- Claim C5 (code bug): at the failing input — a successful search response
with no `items` field — the per-term task throws the TypeError of calling
`.map` on `undefined` and the whole action fails, instead of producing the
empty sequence the claim states; an explicitly empty `items` list, by
contrast, does produce the empty sequence without failing. -/
theorem c5_absent_items_throws :
    searchTask c5Stubs (Json.str "gato") = Except.error JsError.typeError ∧
    action ⟨some "k1", some "k2", some "k3"⟩ c5Stubs "aula" =
      Except.error JsError.typeError ∧
    searchTask c5EmptyStubs (Json.str "gato") = Except.ok [] ∧
    action ⟨some "k1", some "k2", some "k3"⟩ c5EmptyStubs "aula" =
      Except.ok (ActionResponse.success [Json.str "gato"] []) :=
  ⟨rfl, rfl, rfl, rfl⟩

def c6Stubs : Stubs where
  parse := fun _ => some (Json.arr [])
  complete := fun _ => Except.ok ⟨[⟨some "[]"⟩]⟩
  search := fun _ => Except.ok ⟨some []⟩

/-- Claim C6 counterexample: with all three credentials absent the module
still serves requests — the loader responds successfully, and the action
only fails while handling its own request, with the per-request invariant
throw — so a missing credential is not a startup-time precondition raised
before any request is processed. -/
theorem c6_counterexample_no_startup_check :
    loader ⟨none, none, none⟩ = Except.ok ActionResponse.emptyJson ∧
    action ⟨none, none, none⟩ c6Stubs "aula" =
      Except.error (JsError.invariantViolation "OPENAI_API_KEY must be set") :=
  ⟨rfl, rfl⟩

/-- Claim C6 (amended): a missing (or empty) credential makes the action of
that request throw an invariant violation before any outbound call is made
— zero completion calls and zero search calls — but the check runs
per-request inside the action, not at startup. -/
theorem c6_missing_credentials_fail_before_calls
    (env : Env) (stubs : Stubs) (query : String)
    (h : truthy env.OPENAI_API_KEY = false ∨
      truthy env.CUSTOM_SEARCH_KEY = false ∨
      truthy env.CUSTOM_SEARCH_CX = false) :
    (∃ msg, (runAction env stubs query).result =
        Except.error (JsError.invariantViolation msg)) ∧
    (runAction env stubs query).completionCalls = 0 ∧
    (runAction env stubs query).searchQueries = [] := by
  cases hA : truthy env.OPENAI_API_KEY <;>
    cases hB : truthy env.CUSTOM_SEARCH_KEY <;>
      cases hC : truthy env.CUSTOM_SEARCH_CX <;>
        simp_all [runAction, runActionSched]

theorem c6_missing_credentials_fail_before_calls_witness :
    (∃ msg, (runAction ⟨none, some "k2", some "k3"⟩ c6Stubs "aula").result =
        Except.error (JsError.invariantViolation msg)) ∧
    (runAction ⟨none, some "k2", some "k3"⟩ c6Stubs
        "aula").completionCalls = 0 ∧
    (runAction ⟨none, some "k2", some "k3"⟩ c6Stubs
        "aula").searchQueries = [] :=
  c6_missing_credentials_fail_before_calls ⟨none, some "k2", some "k3"⟩
    c6Stubs "aula" (Or.inl rfl)

theorem handleParsed_sched_ok (stubs : Stubs) (p : Option Json)
    (sch1 sch2 : Nat → List Nat) (hcov : ∀ n, Covers (sch1 n) n)
    (r : ActionResponse)
    (hok : (handleParsed sch1 stubs p).result = Except.ok r) :
    (handleParsed sch2 stubs p).result = Except.ok r := by
  cases p with
  | none => exact hok
  | some j =>
    cases j with
    | null => exact hok
    | bool b => exact hok
    | num n => exact hok
    | str s => exact hok
    | obj fs => exact hok
    | arr terms =>
      have hok2 : (fanOut sch1 stubs terms).result = Except.ok r := hok
      show (fanOut sch2 stubs terms).result = Except.ok r
      unfold fanOut at hok2 ⊢
      rcases hp : promiseAllSched (sch1 terms.length)
          (terms.map (searchTask stubs)) with e | vs
      · rw [hp] at hok2
        simp at hok2
      · rw [hp] at hok2
        have hcv : Covers (sch1 terms.length)
            ((terms.map (searchTask stubs)).length) := by
          rw [List.length_map]
          exact hcov terms.length
        obtain ⟨hall, hcoll⟩ := promiseAllSched_ok_inv _ _ _ hcv hp
        have hp2 : promiseAllSched (sch2 terms.length)
            (terms.map (searchTask stubs)) = Except.ok vs :=
          promiseAllSched_eq_ok_of_all_ok _ _ _ hall hcoll
        rw [hp2]
        exact hok2

/-- Claim C7: the action is a deterministic function of the lesson text and
the two capabilities' responses: the settle order of the concurrent search
tasks is the only scheduling freedom, and any run under any settle order
that returns a success response returns the same response as the run under
any other settle order — there is no hidden nondeterminism. -/
theorem c7_success_response_deterministic
    (env : Env) (stubs : Stubs) (query : String)
    (sch1 sch2 : Nat → List Nat) (hcov : ∀ n, Covers (sch1 n) n)
    (r : ActionResponse)
    (hok : (runActionSched sch1 env stubs query).result = Except.ok r) :
    (runActionSched sch2 env stubs query).result = Except.ok r := by
  unfold runActionSched at hok ⊢
  by_cases hA : truthy env.OPENAI_API_KEY = false
  · rw [if_pos hA] at hok ⊢
    exact hok
  · rw [if_neg hA] at hok ⊢
    by_cases hB : truthy env.CUSTOM_SEARCH_KEY = false
    · rw [if_pos hB] at hok ⊢
      exact hok
    · rw [if_neg hB] at hok ⊢
      by_cases hC : truthy env.CUSTOM_SEARCH_CX = false
      · rw [if_pos hC] at hok ⊢
        exact hok
      · rw [if_neg hC] at hok ⊢
        rcases hc : stubs.complete (buildPrompt query) with u | data
        · rw [hc] at hok
          exact hok
        · rw [hc] at hok
          exact handleParsed_sched_ok stubs ((extractText data).bind
            stubs.parse) sch1 sch2 hcov r hok

def c7Stubs : Stubs where
  parse := fun _ => some (Json.arr [Json.str "x", Json.str "y"])
  complete := fun _ => Except.ok ⟨[⟨some "[\"x\", \"y\"]"⟩]⟩
  search := fun _ => Except.ok ⟨some [⟨"l", "d", "t"⟩]⟩

theorem c7_success_response_deterministic_witness :
    (runActionSched (fun n => (List.range n).reverse)
        ⟨some "k1", some "k2", some "k3"⟩ c7Stubs "aula").result =
      Except.ok (ActionResponse.success [Json.str "x", Json.str "y"]
        [⟨"l", "d", "t"⟩, ⟨"l", "d", "t"⟩]) :=
  c7_success_response_deterministic ⟨some "k1", some "k2", some "k3"⟩
    c7Stubs "aula" canonicalSched (fun n => (List.range n).reverse)
    canonicalSched_covers
    (ActionResponse.success [Json.str "x", Json.str "y"]
      [⟨"l", "d", "t"⟩, ⟨"l", "d", "t"⟩]) rfl

/-- Claim C9: a completion output parsing to a JSON array of any length n
(and any element values) fans out exactly one search query per element, in
array order; every success response carries exactly the parsed array as its
search terms; and the empty array succeeds with empty terms and results —
counts other than 3 are not rejected. -/
theorem c9_length_generic_fanout
    (env : Env) (stubs : Stubs) (query : String)
    (raw : String) (data : CompletionData) (terms : List Json)
    (h1 : truthy env.OPENAI_API_KEY = true)
    (h2 : truthy env.CUSTOM_SEARCH_KEY = true)
    (h3 : truthy env.CUSTOM_SEARCH_CX = true)
    (hComplete : stubs.complete (buildPrompt query) = Except.ok data)
    (hRaw : extractText data = some raw)
    (hParse : stubs.parse raw = some (Json.arr terms)) :
    (runAction env stubs query).searchQueries = terms ∧
    (∀ st rs, action env stubs query =
      Except.ok (ActionResponse.success st rs) → st = terms) ∧
    (terms = [] → action env stubs query =
      Except.ok (ActionResponse.success [] [])) := by
  have hred : runAction env stubs query = fanOut canonicalSched stubs terms := by
    simp [runAction, runActionSched, h1, h2, h3, handleCompletion,
      hComplete, hRaw, hParse, handleParsed]
  refine ⟨?_, ?_, ?_⟩
  · rw [hred]
    unfold fanOut
    split <;> rfl
  · intro st rs h
    have haction : action env stubs query =
        (fanOut canonicalSched stubs terms).result := by
      show (runAction env stubs query).result = _
      rw [hred]
    rw [haction] at h
    unfold fanOut at h
    rcases hp : promiseAllSched (canonicalSched terms.length)
        (terms.map (searchTask stubs)) with e | vs
    · rw [hp] at h
      simp at h
    · rw [hp] at h
      simp at h
      exact h.1.symm
  · rintro rfl
    show (runAction env stubs query).result = _
    rw [hred]
    rfl

def c9Stubs : Stubs where
  parse := fun _ => some (Json.arr [])
  complete := fun _ => Except.ok ⟨[⟨some "[]"⟩]⟩
  search := fun _ => Except.ok ⟨some []⟩

theorem c9_length_generic_fanout_witness :
    (runAction ⟨some "k1", some "k2", some "k3"⟩ c9Stubs
        "aula").searchQueries = [] ∧
    (∀ st rs, action ⟨some "k1", some "k2", some "k3"⟩ c9Stubs "aula" =
      Except.ok (ActionResponse.success st rs) → st = []) ∧
    ([] = ([] : List Json) → action ⟨some "k1", some "k2", some "k3"⟩
      c9Stubs "aula" = Except.ok (ActionResponse.success [] [])) :=
  c9_length_generic_fanout ⟨some "k1", some "k2", some "k3"⟩ c9Stubs
    "aula" "[]" ⟨[⟨some "[]"⟩]⟩ [] rfl rfl rfl rfl rfl rfl

/-- Claim C10: when the completion response has no first choice, or a first
choice without text, the extracted raw text is absent, the parse step fails,
and the action returns the 400 "Invalid response from GPT" response (a
returned response, not a thrown exception) with zero search calls. -/
theorem c10_missing_choice_or_text_yields_400
    (env : Env) (stubs : Stubs) (query : String) (data : CompletionData)
    (h1 : truthy env.OPENAI_API_KEY = true)
    (h2 : truthy env.CUSTOM_SEARCH_KEY = true)
    (h3 : truthy env.CUSTOM_SEARCH_CX = true)
    (hComplete : stubs.complete (buildPrompt query) = Except.ok data)
    (hEmpty : data.choices = [] ∨
      ∃ ch, data.choices.head? = some ch ∧ ch.text = none) :
    action env stubs query =
      Except.ok (ActionResponse.jsonError "Invalid response from GPT" 400) ∧
    (runAction env stubs query).searchQueries = [] := by
  have hext : extractText data = none := by
    rcases hEmpty with h | ⟨ch, hch, htext⟩
    · simp [extractText, h]
    · simp [extractText, hch, htext]
  have htr : runAction env stubs query =
      ⟨Except.ok (ActionResponse.jsonError "Invalid response from GPT" 400),
        1, []⟩ := by
    simp [runAction, runActionSched, h1, h2, h3, handleCompletion,
      hComplete, hext, handleParsed]
  exact ⟨by show (runAction env stubs query).result = _; rw [htr],
    by rw [htr]⟩

def c10Data : CompletionData := ⟨[⟨none⟩]⟩

def c10Stubs : Stubs where
  parse := fun _ => some (Json.arr [Json.str "nunca usado"])
  complete := fun _ => Except.ok c10Data
  search := fun _ => Except.ok ⟨some []⟩

theorem c10_missing_choice_or_text_yields_400_witness :
    action ⟨some "k1", some "k2", some "k3"⟩ c10Stubs "aula" =
      Except.ok (ActionResponse.jsonError "Invalid response from GPT" 400) ∧
    (runAction ⟨some "k1", some "k2", some "k3"⟩ c10Stubs
        "aula").searchQueries = [] :=
  c10_missing_choice_or_text_yields_400 ⟨some "k1", some "k2", some "k3"⟩
    c10Stubs "aula" c10Data rfl rfl rfl rfl (Or.inr ⟨⟨none⟩, rfl, rfl⟩)

end PocSearch
